import Mathlib

/-!
Verification of the SaleWatcher temporal-pattern prediction pipeline.

The Python modules under `backend/src` are shallowly embedded here:
* `datetime.date` values are embedded as `Int` day numbers (proleptic
  Gregorian calendar, day 0 = 1970-01-01), with `daysFromCivil` /
  `civilOfDays` converting between day numbers and (year, month, day)
  triples; `timedelta` arithmetic becomes `Int` arithmetic.
* Python floats carrying small decimal quantities (confidences, discount
  percentages, hit rates) are embedded as `ℚ`.
* `None` becomes `Option.none`; Python truthiness of optional strings and
  optional floats is modelled explicitly.
-/

namespace SaleWatcher

/-! ## Calendar embedding of `datetime.date`

`daysFromCivil` and `civilOfDays` are the standard civil-calendar
conversions (Hinnant algorithms); they embed construction of a
`datetime.date` and access to its `.year`/`.month`/`.day` attributes.
In Python the `//` operator is floor division, hence `Int.fdiv` throughout. -/

def daysFromCivil (y m d : Int) : Int :=
  let y' : Int := if m ≤ 2 then y - 1 else y
  let era : Int := Int.fdiv y' 400
  let yoe : Int := y' - era * 400
  let mp : Int := if 2 < m then m - 3 else m + 9
  let doy : Int := Int.fdiv (153 * mp + 2) 5 + d - 1
  let doe : Int := yoe * 365 + Int.fdiv yoe 4 - Int.fdiv yoe 100 + doy
  era * 146097 + doe - 719468

def civilOfDays (z : Int) : Int × Int × Int :=
  let z' : Int := z + 719468
  let era : Int := Int.fdiv z' 146097
  let doe : Int := z' - era * 146097
  let yoe : Int := Int.fdiv (doe - Int.fdiv doe 1460 + Int.fdiv doe 36524 - Int.fdiv doe 146096) 365
  let y : Int := yoe + era * 400
  let doy : Int := doe - (365 * yoe + Int.fdiv yoe 4 - Int.fdiv yoe 100)
  let mp : Int := Int.fdiv (5 * doy + 2) 153
  let d : Int := doy - Int.fdiv (153 * mp + 2) 5 + 1
  let m : Int := if mp < 10 then mp + 3 else mp - 9
  (if m ≤ 2 then y + 1 else y, m, d)

def yearOf (z : Int) : Int := (civilOfDays z).1

def monthOf (z : Int) : Int := (civilOfDays z).2.1

def dayOf (z : Int) : Int := (civilOfDays z).2.2

/-- Embeds `date.weekday()`: Monday = 0 … Sunday = 6 (1970-01-01 was a Thursday). -/
def weekdayOf (z : Int) : Int := (z + 3) % 7

/-- Gregorian leap-year rule, as used by `datetime.date`. -/
def isLeapYear (y : Int) : Bool := y % 4 == 0 && (y % 100 != 0 || y % 400 == 0)

/-! ## `predictor/holidays.py` -/

inductive Holiday where
  | new_years_day
  | mlk_day
  | valentines_day
  | presidents_day
  | easter
  | mothers_day
  | memorial_day
  | fathers_day
  | independence_day
  | labor_day
  | columbus_day
  | halloween
  | veterans_day
  | thanksgiving
  | black_friday
  | cyber_monday
  | christmas_eve
  | christmas
  | new_years_eve
  | back_to_school
  | end_of_summer
deriving DecidableEq, Repr

/-- Members of the `Holiday` enum in declaration order (Python iterates the
enum in this order in `get_all_holidays_for_year`). -/
def allHolidays : List Holiday :=
  [.new_years_day, .mlk_day, .valentines_day, .presidents_day, .easter,
   .mothers_day, .memorial_day, .fathers_day, .independence_day, .labor_day,
   .columbus_day, .halloween, .veterans_day, .thanksgiving, .black_friday,
   .cyber_monday, .christmas_eve, .christmas, .new_years_eve,
   .back_to_school, .end_of_summer]

/-- Embeds `Holiday(value)` — the enum-by-value constructor, `none` when the string
is not a member value (Python raises `ValueError`, caught by the caller). -/
def holidayOfString (s : String) : Option Holiday :=
  (allHolidays.filter (fun h =>
    match h with
    | .new_years_day => s = "new_years_day"
    | .mlk_day => s = "mlk_day"
    | .valentines_day => s = "valentines_day"
    | .presidents_day => s = "presidents_day"
    | .easter => s = "easter"
    | .mothers_day => s = "mothers_day"
    | .memorial_day => s = "memorial_day"
    | .fathers_day => s = "fathers_day"
    | .independence_day => s = "independence_day"
    | .labor_day => s = "labor_day"
    | .columbus_day => s = "columbus_day"
    | .halloween => s = "halloween"
    | .veterans_day => s = "veterans_day"
    | .thanksgiving => s = "thanksgiving"
    | .black_friday => s = "black_friday"
    | .cyber_monday => s = "cyber_monday"
    | .christmas_eve => s = "christmas_eve"
    | .christmas => s = "christmas"
    | .new_years_eve => s = "new_years_eve"
    | .back_to_school => s = "back_to_school"
    | .end_of_summer => s = "end_of_summer")).head?

/-- The `.value` attribute of a `Holiday` member. -/
def holidayValue : Holiday → String
  | .new_years_day => "new_years_day"
  | .mlk_day => "mlk_day"
  | .valentines_day => "valentines_day"
  | .presidents_day => "presidents_day"
  | .easter => "easter"
  | .mothers_day => "mothers_day"
  | .memorial_day => "memorial_day"
  | .fathers_day => "fathers_day"
  | .independence_day => "independence_day"
  | .labor_day => "labor_day"
  | .columbus_day => "columbus_day"
  | .halloween => "halloween"
  | .veterans_day => "veterans_day"
  | .thanksgiving => "thanksgiving"
  | .black_friday => "black_friday"
  | .cyber_monday => "cyber_monday"
  | .christmas_eve => "christmas_eve"
  | .christmas => "christmas"
  | .new_years_eve => "new_years_eve"
  | .back_to_school => "back_to_school"
  | .end_of_summer => "end_of_summer"

/-- Embeds `_nth_weekday_of_month(year, month, weekday, n)`. -/
def nthWeekdayOfMonth (year month weekday n : Int) : Int :=
  let firstDay := daysFromCivil year month 1
  let daysAhead := weekday - weekdayOf firstDay
  let daysAhead := if daysAhead < 0 then daysAhead + 7 else daysAhead
  firstDay + daysAhead + 7 * (n - 1)

/-- Embeds `_last_weekday_of_month(year, month, weekday)`. -/
def lastWeekdayOfMonth (year month weekday : Int) : Int :=
  let firstOfNext :=
    if month = 12 then daysFromCivil (year + 1) 1 1 else daysFromCivil year (month + 1) 1
  let lastDay := firstOfNext - 1
  let daysBack := weekdayOf lastDay - weekday
  let daysBack := if daysBack < 0 then daysBack + 7 else daysBack
  lastDay - daysBack

/-- Embeds `_compute_easter(year)` — Anonymous Gregorian algorithm. -/
def computeEaster (year : Int) : Int :=
  let a := year % 19
  let b := Int.fdiv year 100
  let c := year % 100
  let d := Int.fdiv b 4
  let e := b % 4
  let f := Int.fdiv (b + 8) 25
  let g := Int.fdiv (b - f + 1) 3
  let h := (19 * a + b - d - g + 15) % 30
  let i := Int.fdiv c 4
  let k := c % 4
  let l := (32 + 2 * e + 2 * i - h - k) % 7
  let m := Int.fdiv (a + 11 * h + 22 * l) 451
  let month := Int.fdiv (h + l - 7 * m + 114) 31
  let day := (h + l - 7 * m + 114) % 31 + 1
  daysFromCivil year month day

/-- Embeds `get_holiday_date(holiday, year)`. -/
def get_holiday_date (h : Holiday) (year : Int) : Int :=
  match h with
  | .new_years_day => daysFromCivil year 1 1
  | .valentines_day => daysFromCivil year 2 14
  | .independence_day => daysFromCivil year 7 4
  | .halloween => daysFromCivil year 10 31
  | .veterans_day => daysFromCivil year 11 11
  | .christmas_eve => daysFromCivil year 12 24
  | .christmas => daysFromCivil year 12 25
  | .new_years_eve => daysFromCivil year 12 31
  | .mlk_day => nthWeekdayOfMonth year 1 0 3
  | .presidents_day => nthWeekdayOfMonth year 2 0 3
  | .easter => computeEaster year
  | .mothers_day => nthWeekdayOfMonth year 5 6 2
  | .memorial_day => lastWeekdayOfMonth year 5 0
  | .fathers_day => nthWeekdayOfMonth year 6 6 3
  | .labor_day => nthWeekdayOfMonth year 9 0 1
  | .columbus_day => nthWeekdayOfMonth year 10 0 2
  | .thanksgiving => nthWeekdayOfMonth year 11 3 4
  | .black_friday => nthWeekdayOfMonth year 11 3 4 + 1
  | .cyber_monday => nthWeekdayOfMonth year 11 3 4 + 4
  | .back_to_school => daysFromCivil year 8 15
  | .end_of_summer => nthWeekdayOfMonth year 9 0 1 - 2

/-- Stable insertion into a date-sorted list (`sorted(holidays, key=date)`;
no two tracked holidays ever share a date, so stability is immaterial). -/
def insertByDate (p : Holiday × Int) : List (Holiday × Int) → List (Holiday × Int)
  | [] => [p]
  | q :: rest => if p.2 < q.2 then p :: q :: rest else q :: insertByDate p rest

def sortByDate : List (Holiday × Int) → List (Holiday × Int)
  | [] => []
  | p :: rest => insertByDate p (sortByDate rest)

/-- Embeds `get_all_holidays_for_year(year)`, keeping the holiday and its date. -/
def get_all_holidays_for_year (year : Int) : List (Holiday × Int) :=
  sortByDate (allHolidays.map (fun h => (h, get_holiday_date h year)))

/-- Embeds `find_nearest_holiday(target_date, max_days)` — scans the current year
holidays (plus the adjacent year for December/January dates) and keeps the
first holiday attaining the minimal distance, provided it is ≤ `max_days`. -/
def find_nearest_holiday (targetDate : Int) (maxDays : Int) : Option (Holiday × Int) :=
  let year := yearOf targetDate
  let holidays := get_all_holidays_for_year year
  let holidays :=
    if monthOf targetDate = 12 then holidays ++ get_all_holidays_for_year (year + 1)
    else if monthOf targetDate = 1 then holidays ++ get_all_holidays_for_year (year - 1)
    else holidays
  (holidays.foldl
    (fun acc p =>
      let dist := |p.2 - targetDate|
      if dist ≤ maxDays ∧ dist < acc.2 then (some p, dist) else acc)
    ((none : Option (Holiday × Int)), maxDays + 1)).1

/-- Embeds `adjust_date_for_holiday(original_date, from_year, to_year, holiday)`.
With a holiday anchor the date keeps its offset from the holiday; without
one the year is replaced, clamping February 29 to the 28th when the target
year is not a leap year (the `except ValueError` branch). -/
def adjust_date_for_holiday (originalDate fromYear toYear : Int)
    (holiday : Option Holiday) : Int :=
  match holiday with
  | none =>
      if monthOf originalDate = 2 ∧ dayOf originalDate = 29 ∧ ¬(isLeapYear toYear = true) then
        daysFromCivil toYear (monthOf originalDate) 28
      else
        daysFromCivil toYear (monthOf originalDate) (dayOf originalDate)
  | some h => get_holiday_date h toYear + (originalDate - get_holiday_date h fromYear)

/-- Embeds `detect_holiday_anchor(sale_date, max_days=7)`. -/
def detect_holiday_anchor (saleDate : Int) (maxDays : Int := 7) : Option Holiday :=
  (find_nearest_holiday saleDate maxDays).map (fun p => p.1)

/-! ## `verifier/service.py` -/

def TIMING_TOLERANCE_DAYS : Int := 7

def DISCOUNT_TOLERANCE_PERCENT : ℚ := 10

/-- Python truthiness of an optional string (`None` and `""` are falsy). -/
def strTruthy : Option String → Bool
  | none => false
  | some s => !s.isEmpty

/-- Python truthiness of an optional float (`None` and `0.0` are falsy). -/
def ratTruthy : Option ℚ → Bool
  | none => false
  | some v => v ≠ 0

/-- The first run of decimal digits in a string, as a natural number — the
value matched by the regex search for the pattern backslash-d-plus. -/
def firstDigitRun (s : String) : Option Nat :=
  let ds := (s.data.dropWhile (fun c => !c.isDigit)).takeWhile Char.isDigit
  if ds.isEmpty then none
  else some (ds.foldl (fun acc c => acc * 10 + (c.toNat - 48)) 0)

/-- Embeds `calculate_discount_delta(predicted_discount, actual_discount)`. -/
def calculate_discount_delta (predicted : Option String) (actual : Option ℚ) : Option ℚ :=
  if !strTruthy predicted ∨ actual = none then none
  else
    match firstDigitRun (predicted.getD "") with
    | none => none
    | some k => some (actual.getD 0 - (k : ℚ))

/-- Embeds `determine_result(has_match, timing_delta, discount_delta)`; the result
strings are exactly the Python literals. -/
def determine_result (hasMatch : Bool) (timingDelta : Option Int)
    (discountDelta : Option ℚ) : String :=
  if !hasMatch then "miss"
  else if (match timingDelta with
           | some t => decide (|t| > TIMING_TOLERANCE_DAYS)
           | none => false) then "partial"
  else if (match discountDelta with
           | some d => decide (|d| > DISCOUNT_TOLERANCE_PERCENT)
           | none => false) then "partial"
  else "hit"

structure VerificationMatch where
  email_ids : List Nat
  actual_start : Option Int
  actual_end : Option Int
  actual_discount : Option ℚ
  timing_delta_days : Int
  discount_delta_percent : Option ℚ
deriving DecidableEq, Repr

structure PredictionOutcome where
  auto_result : Option String
  auto_verified_at : Option Nat
  matched_email_ids : List Nat
  actual_start : Option Int
  actual_end : Option Int
  actual_discount : Option ℚ
  timing_delta_days : Option Int
  discount_delta_percent : Option ℚ
  manual_override : Bool
  manual_result : Option String
  override_reason : Option String
deriving DecidableEq, Repr

/-- The state update performed by `PredictionVerifier.verify_prediction`
on the outcome row of the prediction: `existing` is the already-stored outcome
(if any), `mtch` the result of `find_matching_sales`, and `now` the
`datetime.utcnow()` timestamp. -/
def verify_prediction_outcome (existing : Option PredictionOutcome)
    (mtch : Option VerificationMatch) (now : Nat) : PredictionOutcome :=
  let result :=
    match mtch with
    | some m => determine_result true (some m.timing_delta_days) m.discount_delta_percent
    | none => "miss"
  match existing with
  | some outcome =>
      if outcome.manual_override then outcome
      else
        let o := { outcome with auto_result := some result, auto_verified_at := some now }
        match mtch with
        | some m =>
            { o with matched_email_ids := m.email_ids,
                     actual_start := m.actual_start,
                     actual_end := m.actual_end,
                     actual_discount := m.actual_discount,
                     timing_delta_days := some m.timing_delta_days,
                     discount_delta_percent := m.discount_delta_percent }
        | none => o
  | none =>
      { auto_result := some result
        auto_verified_at := some now
        matched_email_ids := (mtch.map (fun m => m.email_ids)).getD []
        actual_start := (mtch.map (fun m => m.actual_start)).getD none
        actual_end := (mtch.map (fun m => m.actual_end)).getD none
        actual_discount := (mtch.map (fun m => m.actual_discount)).getD none
        timing_delta_days := mtch.map (fun m => m.timing_delta_days)
        discount_delta_percent := (mtch.map (fun m => m.discount_delta_percent)).getD none
        manual_override := false
        manual_result := none
        override_reason := none }

/-! ## `predictor/service.py` -/

def PREDICTION_WINDOW_DAYS : Int := 7

def MIN_CONFIDENCE_FOR_PREDICTION : ℚ := 6/10

structure SaleWindow where
  id : Nat
  brand_id : Nat
  name : String
  discount_summary : Option String
  start_date : Int
  end_date : Int
  linked_email_ids : List Nat
  holiday_anchor : Option String
  year : Int
deriving DecidableEq, Repr

structure Prediction where
  brand_id : Nat
  source_window_id : Nat
  predicted_start : Int
  predicted_end : Int
  discount_summary : String
  milled_reference_url : Option String
  confidence : ℚ
deriving DecidableEq, Repr

structure PredictionCandidate where
  brand_id : Nat
  source_window : SaleWindow
  predicted_start : Int
  predicted_end : Int
  discount_summary : String
  confidence : ℚ
  holiday_anchor : Option String
  reference_url : Option String
deriving DecidableEq, Repr

structure RawEmailRef where
  id : Nat
  milled_url : Option String
deriving DecidableEq, Repr

/-- Python `str.lower()` restricted to its ASCII behavior (the discount
summaries the pipeline synthesizes are ASCII). -/
def lowerStr (s : String) : String := String.mk (s.data.map Char.toLower)

/-- The similarity test of `calculate_prediction_confidence`: a historical
window counts when it is a different window from a different year and
either starts in the same month with its day-of-month within 14, or shares
the (truthy) holiday anchor of the source window. The `if`/`elif` in the Python
loop appends the window at most once, so membership is this disjunction. -/
def isSimilarSale (source w : SaleWindow) : Bool :=
  decide (w.id ≠ source.id) && decide (w.year ≠ source.year) &&
    ((decide (monthOf w.start_date = monthOf source.start_date) &&
      decide (|dayOf w.start_date - dayOf source.start_date| ≤ 14)) ||
     (strTruthy source.holiday_anchor && decide (w.holiday_anchor = source.holiday_anchor)))

/-- The `similar_sales` list built by `calculate_prediction_confidence`. -/
def similar_sales (source : SaleWindow) (hist : List SaleWindow) : List SaleWindow :=
  hist.filter (isSimilarSale source)

/-- Whether the discount summary of a historical window matches that of the source
window, case-insensitively, both being truthy. -/
def discountSummaryMatches (source w : SaleWindow) : Bool :=
  strTruthy w.discount_summary &&
    decide (lowerStr (w.discount_summary.getD "") = lowerStr (source.discount_summary.getD ""))

/-- Embeds `calculate_prediction_confidence(source_window, historical_windows)`. -/
def calculate_prediction_confidence (source : SaleWindow) (hist : List SaleWindow) : ℚ :=
  let base : ℚ := 1/2
  let base := if strTruthy source.holiday_anchor then base + 15/100 else base
  let similar := similar_sales source hist
  let yearsOfData : Nat := ((similar.map (fun w => w.year)).dedup).length
  let base := base + min ((yearsOfData : ℚ) * (1/10)) (25/100)
  let base :=
    if !similar.isEmpty && strTruthy source.discount_summary then
      if 0 < similar.countP (discountSummaryMatches source) then base + 1/10 else base
    else base
  min base 1

/-- The confidence formula as the specification words it: 0.5, plus 0.15
when holiday-anchored, plus 0.10 per distinct prior year holding a similar
window (de-duplicated by window identity, capped at 0.25), plus 0.10 when
the discount summary text matches some precedent window, capped at 1.0. -/
def spec_confidence (source : SaleWindow) (hist : List SaleWindow) : ℚ :=
  let priorYears : Finset Int :=
    (((hist.filter (isSimilarSale source)).map (fun w => w.year)).toFinset).filter
      (fun y => y < source.year)
  let holidayBonus : ℚ := if strTruthy source.holiday_anchor then 15/100 else 0
  let precedentBonus : ℚ := min ((priorYears.card : ℚ) * (1/10)) (25/100)
  let discountBonus : ℚ :=
    if ∃ w ∈ hist, isSimilarSale source w = true ∧ discountSummaryMatches source w = true
    then 1/10 else 0
  min (1/2 + holidayBonus + precedentBonus + discountBonus) 1

/-- Embeds `get_reference_url(source_window, emails)`. -/
def get_reference_url (source : SaleWindow) (emails : List RawEmailRef) : Option String :=
  if source.linked_email_ids.isEmpty then none
  else
    match emails.find? (fun e => source.linked_email_ids.contains e.id) with
    | some e => e.milled_url
    | none => none

/-- The anchor resolution at the top of the `generate_candidates` loop:
the stored anchor string if it names a `Holiday` member, else
`detect_holiday_anchor` on the start date of the window. -/
def resolveAnchor (w : SaleWindow) : Option Holiday :=
  let stored :=
    if strTruthy w.holiday_anchor then holidayOfString (w.holiday_anchor.getD "") else none
  match stored with
  | some h => some h
  | none => detect_holiday_anchor w.start_date

/-- The date projection inside `generate_candidates`: anchor-relative via
`adjust_date_for_holiday` when an anchor exists; otherwise
`start_date.replace(year=target)` / `end_date.replace(year=target)` inside
one `try`, whose shared `except ValueError` clause sets BOTH dates to day
28 of their months whenever either date is February 29 of a leap year and
the target year is not a leap year. -/
def projectDates (w : SaleWindow) (targetYear : Int) (anchor : Option Holiday) : Int × Int :=
  match anchor with
  | some h =>
      (adjust_date_for_holiday w.start_date w.year targetYear (some h),
       adjust_date_for_holiday w.end_date w.year targetYear (some h))
  | none =>
      if ((monthOf w.start_date = 2 ∧ dayOf w.start_date = 29) ∨
          (monthOf w.end_date = 2 ∧ dayOf w.end_date = 29)) ∧ ¬(isLeapYear targetYear = true) then
        (daysFromCivil targetYear (monthOf w.start_date) 28,
         daysFromCivil targetYear (monthOf w.end_date) 28)
      else
        (daysFromCivil targetYear (monthOf w.start_date) (dayOf w.start_date),
         daysFromCivil targetYear (monthOf w.end_date) (dayOf w.end_date))

/-- Embeds `PredictionGenerator.generate_candidates`. -/
def generate_candidates (targetYear : Int) (source_windows all_windows : List SaleWindow)
    (existing_predictions : List Prediction) (emails : List RawEmailRef) :
    List PredictionCandidate :=
  let existingWindowIds := existing_predictions.map (fun p => p.source_window_id)
  source_windows.filterMap (fun w =>
    if existingWindowIds.contains w.id then none
    else
      let anchor := resolveAnchor w
      let dates := projectDates w targetYear anchor
      let confidence := calculate_prediction_confidence w all_windows
      if confidence < MIN_CONFIDENCE_FOR_PREDICTION then none
      else
        some { brand_id := w.brand_id
               source_window := w
               predicted_start := dates.1
               predicted_end := dates.2
               discount_summary :=
                 if strTruthy w.discount_summary then w.discount_summary.getD "" else w.name
               confidence := confidence
               holiday_anchor := anchor.map holidayValue
               reference_url := get_reference_url w emails })

/-- Embeds `PredictionGenerator.get_existing_predictions`: the stored
predictions whose `predicted_start` lies between January 1 and
December 31 of the target year. -/
def get_existing_predictions (targetYear : Int) (preds : List Prediction) : List Prediction :=
  preds.filter (fun p =>
    daysFromCivil targetYear 1 1 ≤ p.predicted_start ∧
    p.predicted_start ≤ daysFromCivil targetYear 12 31)

/-- Embeds `PredictionGenerator.create_predictions` on candidates. -/
def create_predictions (cs : List PredictionCandidate) : List Prediction :=
  cs.map (fun c =>
    { brand_id := c.brand_id
      source_window_id := c.source_window.id
      predicted_start := c.predicted_start
      predicted_end := c.predicted_end
      discount_summary := c.discount_summary
      milled_reference_url := c.reference_url
      confidence := c.confidence })

/-- One `generate_for_brand` pass over an in-memory store: `storePreds`
holds all stored predictions of the brand; the result is the batch of
newly created predictions. -/
def generate_for_brand (targetYear : Int) (source_windows all_windows : List SaleWindow)
    (storePreds : List Prediction) (emails : List RawEmailRef) : List Prediction :=
  create_predictions
    (generate_candidates targetYear source_windows all_windows
      (get_existing_predictions targetYear storePreds) emails)

/-! ## `deduplicator/service.py` -/

def DATE_PROXIMITY_DAYS : Int := 3

def DISCOUNT_VALUE_TOLERANCE : ℚ := 5

structure ExtractedSale where
  email_id : Nat
  sent_at : Int
  sale_start : Option Int
  sale_end : Option Int
  discount_type : String
  discount_value : Option ℚ
  categories : List String
  confidence : ℚ
  is_sitewide : Bool
deriving DecidableEq, Repr

structure SaleGroup where
  emails : List ExtractedSale
  start_date : Int
  end_date : Int
  discount_type : String
  discount_value : Option ℚ
  categories : Finset String
deriving DecidableEq

/-- Embeds `dates_overlap(start1, end1, start2, end2, proximity_days)`. -/
def dates_overlap (start1 end1 start2 end2 : Int)
    (proximityDays : Int := DATE_PROXIMITY_DAYS) : Bool :=
  decide (start1 - proximityDays ≤ end2 + proximityDays) &&
  decide (start2 - proximityDays ≤ end1 + proximityDays)

/-- Embeds `discounts_match(type1, value1, type2, value2, tolerance)`. -/
def discounts_match (type1 : String) (value1 : Option ℚ) (type2 : String)
    (value2 : Option ℚ) (tolerance : ℚ := DISCOUNT_VALUE_TOLERANCE) : Bool :=
  if type1 ≠ type2 then false
  else
    match value1, value2 with
    | some v1, some v2 => decide (|v1 - v2| ≤ tolerance)
    | _, _ => true

/-- Embeds `get_sale_dates(extraction)` (the email is always present in the
pipeline, so the effective fallback date is the sent date of the email). -/
def get_sale_dates (e : ExtractedSale) : Int × Int :=
  let start := e.sale_start.getD e.sent_at
  (start, e.sale_end.getD start)

/-- The maximum confidence among the members of a group
(`max(e.confidence for e in ...)`; groups are never empty). -/
def maxConfidence : List ExtractedSale → ℚ
  | [] => 0
  | e :: rest => rest.foldl (fun acc x => max acc x.confidence) e.confidence

/-- Joining an extraction to a matched group, exactly as the matched
branch of `group_extractions` updates it: the member is appended, the span
is extended to the union, the categories are merged, and the discount
value is replaced by the value of the joining member only when that value is truthy
(present and non-zero) and either the group has no value yet or the
confidence of the joining member strictly exceeds the maximum confidence of all
previous members (`matched_group.emails[:-1]`). -/
def joinGroup (g : SaleGroup) (e : ExtractedSale) (start stop : Int) : SaleGroup :=
  { emails := g.emails ++ [e]
    start_date := min g.start_date start
    end_date := max g.end_date stop
    discount_type := g.discount_type
    discount_value :=
      if ratTruthy e.discount_value &&
         (decide (g.discount_value = none) || decide (maxConfidence g.emails < e.confidence))
      then e.discount_value else g.discount_value
    categories := g.categories ∪ e.categories.toFinset }

/-- A fresh group for an unmatched extraction. -/
def newGroup (e : ExtractedSale) (start stop : Int) : SaleGroup :=
  { emails := [e]
    start_date := start
    end_date := stop
    discount_type := e.discount_type
    discount_value := e.discount_value
    categories := e.categories.toFinset }

/-- Whether an extraction may join a group: padded spans overlap and the
discounts match. -/
def groupMatches (start stop : Int) (e : ExtractedSale) (g : SaleGroup) : Bool :=
  dates_overlap start stop g.start_date g.end_date &&
  discounts_match e.discount_type e.discount_value g.discount_type g.discount_value

/-- Updating the first matching group in the open-group list; `none` when
no group matches. -/
def insertExtraction (e : ExtractedSale) (start stop : Int) :
    List SaleGroup → Option (List SaleGroup)
  | [] => none
  | g :: rest =>
      if groupMatches start stop e g then some (joinGroup g e start stop :: rest)
      else (insertExtraction e start stop rest).map (fun gs => g :: gs)

/-- Embeds `SaleDeduplicator.group_extractions`: greedy single-pass clustering in
arrival order. -/
def group_extractions (extractions : List ExtractedSale) : List SaleGroup :=
  extractions.foldl
    (fun groups e =>
      let dates := get_sale_dates e
      match insertExtraction e dates.1 dates.2 groups with
      | some groups' => groups'
      | none => groups ++ [newGroup e dates.1 dates.2])
    []

/-! ## `verifier/accuracy.py` -/

/-- Python `int()` on a rational: truncation toward zero. -/
def ratTrunc (q : ℚ) : Int := if q < 0 then ⌈q⌉ else ⌊q⌋

/-- Embeds `calculate_reliability_score(hit_rate, total_predictions)`.
`int(math.log2(total + 1) * 5)` is embedded exactly as
`⌊5·log2(total+1)⌋ = Nat.log 2 ((total+1)^5)`; the float computation
agrees with this on every total, since the bonus saturates at 20 once
`total + 1 ≥ 16` and `log2` is exact there. -/
def calculate_reliability_score (hitRate : ℚ) (totalPredictions : Nat) : Int :=
  let baseScore := ratTrunc (hitRate * 80)
  let dataBonus : Int := min 20 ((Nat.log 2 ((totalPredictions + 1) ^ 5) : Int))
  min 100 (baseScore + dataBonus)

structure AdjustmentSuggestion where
  suggestion_type : String
  direction : String
  avg_timing_delta : ℚ
  sample_size : Nat
  recommended_shift : Int
deriving DecidableEq, Repr

/-- Embeds `AccuracyCalculator.check_for_timing_drift`, as a function of the
timing deltas of the outcomes of the brand ordered by predicted start descending and
restricted to known (non-null) deltas; the database `limit 10` is the
`take 10`. The Python builds description strings from the same fields kept
here (`direction`, the average, the truncated shift). -/
def check_for_timing_drift (deltas : List Int) : Option AdjustmentSuggestion :=
  let recent := deltas.take 10
  if recent.length < 5 then none
  else
    let avg : ℚ := ((recent.map (fun d => (d : ℚ))).sum) / (recent.length : ℚ)
    if 3 < |avg| then
      some { suggestion_type := "timing_drift"
             direction := if avg < 0 then "early" else "late"
             avg_timing_delta := avg
             sample_size := recent.length
             recommended_shift := ratTrunc avg }
    else none

/-! ## Derived characterizations used to state group invariants -/

/-- Effective start date of an extraction (first component of
`get_sale_dates`). -/
def effStart (e : ExtractedSale) : Int := (get_sale_dates e).1

/-- Effective end date of an extraction (second component of
`get_sale_dates`). -/
def effEnd (e : ExtractedSale) : Int := (get_sale_dates e).2

/-- The union of the padded effective spans of a non-empty member list:
the (min start, max end) over all members. -/
def spanOfMembers : List ExtractedSale → Int × Int
  | [] => (0, 0)
  | e :: rest =>
      rest.foldl (fun acc x => (min acc.1 (effStart x), max acc.2 (effEnd x)))
        (effStart e, effEnd e)

/-- The union of the category sets of a member list. -/
def categoriesOfMembers (l : List ExtractedSale) : Finset String :=
  l.foldl (fun acc e => acc ∪ e.categories.toFinset) ∅

/-- One step of the discount-value update rule applied on each join, paired
with the running maximum confidence of the members seen so far. -/
def valueStep (st : Option ℚ × ℚ) (e : ExtractedSale) : Option ℚ × ℚ :=
  (if ratTruthy e.discount_value &&
      (decide (st.1 = none) || decide (st.2 < e.confidence))
   then e.discount_value else st.1,
   max st.2 e.confidence)

/-- The discount value a group ends up with, as a function of its member
list in join order. -/
def valueOfMembers : List ExtractedSale → Option ℚ
  | [] => none
  | e :: rest => (rest.foldl valueStep (e.discount_value, e.confidence)).1

/-- The invariant every group produced by `group_extractions` satisfies:
its span is the union of the effective spans of its members, its category
set the union of their category sets, and its discount value the result of
folding the conditional update rule over the member list in join order. -/
def GroupInvariant (g : SaleGroup) : Prop :=
  g.emails ≠ []
  ∧ g.start_date = (spanOfMembers g.emails).1
  ∧ g.end_date = (spanOfMembers g.emails).2
  ∧ g.categories = categoriesOfMembers g.emails
  ∧ g.discount_value = valueOfMembers g.emails

/-! ## Concrete data used by counterexamples, failing inputs and witnesses -/

/-- A seed window whose stored anchor is Christmas but whose span is
January 1: the anchor-relative projection to 2025 lands on
December 31, 2024, outside the target calendar year. -/
def winterWindow : SaleWindow :=
  { id := 1, brand_id := 1, name := "NY Sale", discount_summary := some "20% off",
    start_date := daysFromCivil 2024 1 1, end_date := daysFromCivil 2024 1 1,
    linked_email_ids := [], holiday_anchor := some "christmas", year := 2024 }

/-- A seed window spanning February 29 to March 5, 2024, with no holiday
anchor (no tracked holiday lies within 7 days of February 29). -/
def leapWindow : SaleWindow :=
  { id := 2, brand_id := 1, name := "Leap Sale", discount_summary := some "25% off",
    start_date := daysFromCivil 2024 2 29, end_date := daysFromCivil 2024 3 5,
    linked_email_ids := [], holiday_anchor := none, year := 2024 }

/-- A 2023 precedent window for `leapWindow` (same month, day within 14),
lifting its confidence to 0.6 so it is accepted. -/
def leapPrecedent : SaleWindow :=
  { id := 3, brand_id := 1, name := "Feb Sale", discount_summary := some "25% off",
    start_date := daysFromCivil 2023 2 20, end_date := daysFromCivil 2023 2 24,
    linked_email_ids := [], holiday_anchor := none, year := 2023 }

/-- Extraction with high confidence and no discount value. -/
def extNoValue : ExtractedSale :=
  { email_id := 1, sent_at := 0, sale_start := some 0, sale_end := some 2,
    discount_type := "percent_off", discount_value := none, categories := [],
    confidence := 9/10, is_sitewide := false }

/-- Extraction with low confidence and discount value 20. -/
def extLowConf : ExtractedSale :=
  { extNoValue with email_id := 2, discount_value := some 20, confidence := 3/10 }

/-- Extraction with middling confidence and discount value 25 — the most
confident member that has a value at all. -/
def extMidConf : ExtractedSale :=
  { extNoValue with email_id := 3, discount_value := some 25, confidence := 6/10 }

/-- A stored prediction for `winterWindow` whose predicted start lies
inside the 2025 calendar year. -/
def inYearPrediction : Prediction :=
  { brand_id := 1, source_window_id := 1,
    predicted_start := daysFromCivil 2025 3 10, predicted_end := daysFromCivil 2025 3 12,
    discount_summary := "20% off", milled_reference_url := none, confidence := 7/10 }

/-! ## Theorems -/

/-- Claim C1: verification classification. No matching evidence gives
"miss"; with evidence, the result is "hit" exactly when the timing delta
is within ±7 days and the discount delta within ±10 percentage points
(boundary values count as within tolerance), and "partial" exactly when
either tolerance is exceeded. -/
theorem verification_result_classification (td : Option Int) (dd : Option ℚ)
    (t : Int) (d : ℚ) :
    determine_result false td dd = "miss"
    ∧ (determine_result true (some t) (some d) = "hit" ↔ |t| ≤ 7 ∧ |d| ≤ 10)
    ∧ (determine_result true (some t) (some d) = "partial" ↔ (7 < |t| ∨ 10 < |d|)) := by
  have key : determine_result true (some t) (some d) =
      if 7 < |t| then "partial" else if 10 < |d| then "partial" else "hit" := by
    simp only [determine_result, TIMING_TOLERANCE_DAYS, DISCOUNT_TOLERANCE_PERCENT]
    by_cases h1 : (7:Int) < |t| <;> by_cases h2 : (10:ℚ) < |d| <;> simp [h1, h2]
  refine ⟨rfl, ?_, ?_⟩
  · rw [key]
    by_cases h1 : (7:Int) < |t|
    · simp [h1, not_le.mpr h1]
    · by_cases h2 : (10:ℚ) < |d|
      · simp [h1, h2, not_le.mpr h2]
      · simp [h1, h2, not_lt.mp h1, not_lt.mp h2]
  · rw [key]
    by_cases h1 : (7:Int) < |t|
    · simp [h1]
    · by_cases h2 : (10:ℚ) < |d|
      · simp [h1, h2]
      · simp [h1, h2]

/-- Claim C2: once `manual_override` is set on an outcome, automated
re-verification leaves the manual fields (`manual_result`,
`override_reason`) unchanged, for any state of the matching evidence. -/
theorem manual_override_fields_preserved (o : PredictionOutcome)
    (m : Option VerificationMatch) (now : Nat) (h : o.manual_override = true) :
    (verify_prediction_outcome (some o) m now).manual_result = o.manual_result
    ∧ (verify_prediction_outcome (some o) m now).override_reason = o.override_reason := by
  simp [verify_prediction_outcome, h]

/-- Closed witness for `manual_override_fields_preserved`. -/
theorem manual_override_fields_preserved_witness :
    (verify_prediction_outcome
        (some { auto_result := some "miss", auto_verified_at := some 0,
                matched_email_ids := [], actual_start := none, actual_end := none,
                actual_discount := none, timing_delta_days := none,
                discount_delta_percent := none, manual_override := true,
                manual_result := some "hit", override_reason := some "human said so" })
        (some { email_ids := [7], actual_start := some 0, actual_end := some 1,
                actual_discount := some 30, timing_delta_days := 2,
                discount_delta_percent := some 5 }) 99).manual_result = some "hit" :=
  (manual_override_fields_preserved _ _ 99 rfl).1.trans rfl

/-- Claim C7: adjusting a date (other than February 29) from year Y1 to Y2
relative to a holiday anchor and back again returns the original date: the
anchored adjustment is translation by the difference of the holiday dates,
which cancels exactly. -/
theorem adjust_date_roundtrip (d y1 y2 : Int) (h : Holiday)
    (hd : ¬(monthOf d = 2 ∧ dayOf d = 29)) :
    adjust_date_for_holiday (adjust_date_for_holiday d y1 y2 (some h)) y2 y1 (some h) = d := by
  simp only [adjust_date_for_holiday]
  ring

/-- Closed witness for `adjust_date_roundtrip` at November 29, 2024,
anchored to Black Friday, between 2024 and 2025. -/
theorem adjust_date_roundtrip_witness :
    ¬(monthOf (daysFromCivil 2024 11 29) = 2 ∧ dayOf (daysFromCivil 2024 11 29) = 29)
    ∧ adjust_date_for_holiday
        (adjust_date_for_holiday (daysFromCivil 2024 11 29) 2024 2025 (some .black_friday))
        2025 2024 (some .black_friday) = daysFromCivil 2024 11 29 :=
  ⟨by decide, adjust_date_roundtrip (daysFromCivil 2024 11 29) 2024 2025 .black_friday (by decide)⟩

/-- Claim C9: for hit rates in [0,1] and at least one prediction, the
reliability score equals floor(hit_rate × 80) + min(20, floor(5 ×
log2(total + 1))) clamped to [0,100], and always lies within [0,100]. -/
theorem reliability_score_formula (hr : ℚ) (n : ℕ)
    (h0 : 0 ≤ hr) (h1 : hr ≤ 1) (hn : 1 ≤ n) :
    calculate_reliability_score hr n
      = max 0 (min 100 (⌊hr * 80⌋ + min 20 ((Nat.log 2 ((n + 1) ^ 5) : Int))))
    ∧ 0 ≤ calculate_reliability_score hr n
    ∧ calculate_reliability_score hr n ≤ 100 := by
  have hmul : (0:ℚ) ≤ hr * 80 := by positivity
  have htr : ratTrunc (hr * 80) = ⌊hr * 80⌋ := by
    simp [ratTrunc, not_lt.mpr hmul]
  have hfl : (0:Int) ≤ ⌊hr * 80⌋ := Int.floor_nonneg.mpr hmul
  have hbonus : (0:Int) ≤ min 20 ((Nat.log 2 ((n + 1) ^ 5) : Int)) :=
    le_min (by norm_num) (Int.natCast_nonneg _)
  have hsum : (0:Int) ≤ ⌊hr * 80⌋ + min 20 ((Nat.log 2 ((n + 1) ^ 5) : Int)) := by
    exact add_nonneg hfl hbonus
  have hscore : calculate_reliability_score hr n
      = min 100 (⌊hr * 80⌋ + min 20 ((Nat.log 2 ((n + 1) ^ 5) : Int))) := by
    simp [calculate_reliability_score, htr]
  refine ⟨?_, ?_, ?_⟩
  · rw [hscore, max_eq_right (le_min (by norm_num) hsum)]
  · rw [hscore]
    exact le_min (by norm_num) hsum
  · rw [hscore]
    exact min_le_left _ _

/-- Closed witness for `reliability_score_formula` at hit rate 1/2 and 5
predictions. -/
theorem reliability_score_formula_witness :
    calculate_reliability_score (1/2) 5
      = max 0 (min 100 (⌊(1:ℚ)/2 * 80⌋ + min 20 ((Nat.log 2 ((5 + 1) ^ 5) : Int))))
    ∧ 0 ≤ calculate_reliability_score (1/2) 5
    ∧ calculate_reliability_score (1/2) 5 ≤ 100 :=
  reliability_score_formula (1/2) 5 (by norm_num) (by norm_num) (by norm_num)

/-- Claim C10: when the predicted discount summary holds no digit, or the
actual discount is absent, the discount delta is null; and a null discount
delta never prevents a hit — evidence with an in-tolerance timing delta is
classified "hit" regardless of the actual discount. -/
theorem null_discount_delta_allows_hit (s : String) (a : Option ℚ) (t : Int) :
    ((∀ c ∈ s.data, c.isDigit = false) → calculate_discount_delta (some s) a = none)
    ∧ calculate_discount_delta (some s) none = none
    ∧ (|t| ≤ 7 → determine_result true (some t) none = "hit") := by
  refine ⟨?_, ?_, ?_⟩
  · intro hnd
    have hdrop : s.data.dropWhile (fun c => !c.isDigit) = [] := by
      rw [List.dropWhile_eq_nil_iff]
      intro c hc
      simp [hnd c hc]
    have hrun : firstDigitRun s = none := by
      simp [firstDigitRun, hdrop]
    simp only [calculate_discount_delta]
    split_ifs with hg
    · rfl
    · simp [hrun]
  · simp [calculate_discount_delta]
  · intro ht
    simp [determine_result, TIMING_TOLERANCE_DAYS, not_lt.mpr ht]

/-- Closed witness for `null_discount_delta_allows_hit` on a digit-free
summary, a present actual discount, and the boundary timing delta 7. -/
theorem null_discount_delta_allows_hit_witness :
    calculate_discount_delta (some "sitewide sale") (some 30) = none
    ∧ determine_result true (some 7) none = "hit" :=
  ⟨(null_discount_delta_allows_hit "sitewide sale" (some 30) 7).1 (by decide),
   (null_discount_delta_allows_hit "sitewide sale" (some 30) 7).2.2 (by decide)⟩

/-- Counterexample to claim C5 as stated: the code emits a suggestion when
the absolute value of the mean delta exceeds 3, not when the mean of the
absolute deltas does, and it requires at least 5 outcomes. Deltas
[6, -6, 6, -6, 6] have mean of absolute deltas 6 > 3, yet no suggestion is
emitted (the mean is 6/5); deltas [10, 10, 10, 10] have mean absolute
delta 10 > 3, yet no suggestion is emitted (only 4 outcomes). -/
theorem timing_drift_claim_counterexample :
    check_for_timing_drift [6, -6, 6, -6, 6] = none
    ∧ 3 < (([6, -6, 6, -6, 6] : List Int).map (fun d => |(d : ℚ)|)).sum / 5
    ∧ check_for_timing_drift [10, 10, 10, 10] = none
    ∧ 3 < (([10, 10, 10, 10] : List Int).map (fun d => |(d : ℚ)|)).sum / 4 := by
  have habs : ¬((3:ℚ) < |(6:ℚ)/5|) := by
    rw [abs_of_nonneg (by norm_num : (0:ℚ) ≤ 6/5)]
    norm_num
  refine ⟨?_, by norm_num, by norm_num [check_for_timing_drift], by norm_num⟩
  norm_num [check_for_timing_drift]
  exact fun h => absurd h habs

/-- Claim C5 as amended: over the 10 most recent verified outcomes with a
known timing delta, a timing_drift suggestion is emitted exactly when at
least 5 such outcomes exist and the absolute value of their mean timing
delta exceeds 3 days; the suggestion recommends a shift in the drift
direction ("early" for a negative mean, "late" otherwise). -/
theorem timing_drift_amended (deltas : List Int) :
    ((check_for_timing_drift deltas).isSome = true ↔
      5 ≤ (deltas.take 10).length ∧
      3 < |((deltas.take 10).map (fun d => (d : ℚ))).sum / (((deltas.take 10).length : ℚ))|)
    ∧ (∀ s, check_for_timing_drift deltas = some s →
        s.suggestion_type = "timing_drift" ∧
        s.direction =
          (if ((deltas.take 10).map (fun d => (d : ℚ))).sum / (((deltas.take 10).length : ℚ)) < 0
           then "early" else "late")) := by
  simp only [check_for_timing_drift]
  by_cases hlen : (deltas.take 10).length < 5
  · rw [if_pos hlen]
    refine ⟨?_, fun s hs => by cases hs⟩
    simp only [Option.isSome_none, Bool.false_eq_true, false_iff]
    exact fun h => absurd h.1 (by omega)
  · rw [if_neg hlen]
    by_cases havg :
        3 < |((deltas.take 10).map (fun d => (d : ℚ))).sum / (((deltas.take 10).length : ℚ))|
    · rw [if_pos havg]
      refine ⟨?_, ?_⟩
      · simp only [Option.isSome_some, true_iff]
        exact ⟨by omega, havg⟩
      · intro s hs
        injection hs with h
        subst h
        exact ⟨rfl, rfl⟩
    · rw [if_neg havg]
      refine ⟨?_, fun s hs => by cases hs⟩
      simp only [Option.isSome_none, Bool.false_eq_true, false_iff]
      exact fun h => absurd h.2 havg

/-- Closed witness for `timing_drift_amended`: five deltas of 5 days
produce a "late" suggestion. -/
theorem timing_drift_amended_witness :
    (check_for_timing_drift [5, 5, 5, 5, 5]).isSome = true :=
  (timing_drift_amended [5, 5, 5, 5, 5]).1.mpr
    ⟨by norm_num, by
      rw [abs_of_nonneg (by norm_num : (0:ℚ) ≤ ((([5, 5, 5, 5, 5] : List Int).take 10).map
        (fun d => (d : ℚ))).sum / ((((([5, 5, 5, 5, 5] : List Int).take 10)).length : ℚ)))]
      norm_num⟩

/-- Counterexample to claim C6 as stated: `winterWindow` is anchored to
Christmas with its span on January 1, so its projection to 2025 lands on
December 31, 2024 — outside the target calendar year. The first run
creates one prediction; rerunning over the unchanged store creates a
second prediction from the same source window for the same target year,
because the duplicate check only sees predictions whose predicted start
lies inside the target calendar year. -/
theorem duplicate_prediction_counterexample :
    (generate_for_brand 2025 [winterWindow] [] [] []).length = 1
    ∧ (generate_for_brand 2025 [winterWindow] []
        (generate_for_brand 2025 [winterWindow] [] [] []) []).length = 1
    ∧ (∀ p ∈ generate_for_brand 2025 [winterWindow] [] [] [],
        p.source_window_id = winterWindow.id
        ∧ p.predicted_start < daysFromCivil 2025 1 1) := by
  have hanchor : resolveAnchor winterWindow = some .christmas := by decide
  have hproj : projectDates winterWindow 2025 (some .christmas)
      = (daysFromCivil 2024 12 31, daysFromCivil 2024 12 31) := by decide
  have hconf : calculate_prediction_confidence winterWindow [] = 13/20 := by
    norm_num +decide [calculate_prediction_confidence, similar_sales, strTruthy, winterWindow]
  refine ⟨?_, ?_, ?_⟩ <;>
    norm_num +decide [generate_for_brand, generate_candidates, get_existing_predictions,
      create_predictions, hanchor, hproj, hconf, MIN_CONFIDENCE_FOR_PREDICTION,
      get_reference_url,
      List.filterMap_cons, List.filterMap_nil, List.map_cons, List.map_nil, List.filter_cons]

/-- Claim C6 as amended: prediction generation is idempotent for seed
windows that already carry a Prediction whose predicted start falls inside
the target calendar year (January 1 to December 31): a second run over an
unchanged store creates no candidates at all. -/
theorem prediction_generation_idempotent (targetYear : Int)
    (source_windows all_windows : List SaleWindow)
    (storePreds : List Prediction) (emails : List RawEmailRef)
    (h : ∀ w ∈ source_windows, ∃ p ∈ storePreds,
        p.source_window_id = w.id
        ∧ daysFromCivil targetYear 1 1 ≤ p.predicted_start
        ∧ p.predicted_start ≤ daysFromCivil targetYear 12 31) :
    generate_for_brand targetYear source_windows all_windows storePreds emails = [] := by
  unfold generate_for_brand create_predictions
  rw [List.map_eq_nil_iff]
  unfold generate_candidates
  rw [List.filterMap_eq_nil_iff]
  intro w hw
  obtain ⟨p, hp, hid, hlo, hhi⟩ := h w hw
  have hmem : p ∈ get_existing_predictions targetYear storePreds := by
    simp only [get_existing_predictions, List.mem_filter, decide_eq_true_eq]
    exact ⟨hp, hlo, hhi⟩
  have hmm : w.id ∈ (get_existing_predictions targetYear storePreds).map
      (fun p => p.source_window_id) :=
    List.mem_map.mpr ⟨p, hmem, hid⟩
  have hcontains : ((get_existing_predictions targetYear storePreds).map
      (fun p => p.source_window_id)).contains w.id = true :=
    List.elem_eq_true_of_mem hmm
  simp only [hcontains, if_true]

/-- Closed witness for `prediction_generation_idempotent`: with an
in-year stored prediction for `winterWindow`, a rerun creates nothing. -/
theorem prediction_generation_idempotent_witness :
    generate_for_brand 2025 [winterWindow] [] [inYearPrediction] [] = [] :=
  prediction_generation_idempotent 2025 [winterWindow] [] [inYearPrediction] [] (by decide)

/-- Claim C8, evaluated at the failing input: for the anchor-free seed
window spanning February 29 to March 5, 2024, projection to 2025 yields
predicted dates February 28 and March 28 — the span end, which is not
February 29, had its day clamped to 28 instead of keeping March 5. -/
theorem feb29_clamp_alters_partner_date :
    (generate_candidates 2025 [leapWindow] [leapPrecedent] [] []).map
        (fun c => (c.predicted_start, c.predicted_end))
      = [(daysFromCivil 2025 2 28, daysFromCivil 2025 3 28)]
    ∧ daysFromCivil 2025 3 28 ≠ daysFromCivil 2025 3 5
    ∧ monthOf leapWindow.end_date = 3 ∧ dayOf leapWindow.end_date = 5 := by
  have hanchor : resolveAnchor leapWindow = none := by decide
  have hproj : projectDates leapWindow 2025 none
      = (daysFromCivil 2025 2 28, daysFromCivil 2025 3 28) := by decide
  have hconf : calculate_prediction_confidence leapWindow [leapPrecedent] = 7/10 := by
    norm_num +decide [calculate_prediction_confidence, similar_sales, strTruthy,
      leapWindow, leapPrecedent, isSimilarSale, discountSummaryMatches, lowerStr]
  refine ⟨?_, by decide, by decide, by decide⟩
  norm_num +decide [generate_candidates, hanchor, hproj, hconf,
    MIN_CONFIDENCE_FOR_PREDICTION, get_reference_url,
    List.filterMap_cons, List.filterMap_nil, List.map_cons, List.map_nil]

/-- A lowercased string is empty exactly when the original is. -/
theorem lowerStr_eq_empty_iff (s : String) : lowerStr s = "" ↔ s = "" := by
  constructor
  · intro h
    have hdata : s.data.map Char.toLower = [] := congrArg String.data h
    have : s.data = [] := List.map_eq_nil_iff.mp hdata
    cases s
    simp_all
  · rintro rfl
    rfl

/-- Truthiness of an optional string is presence of a non-empty string. -/
theorem strTruthy_some_iff (o : Option String) :
    strTruthy o = true ↔ ∃ s, o = some s ∧ s ≠ "" := by
  cases o with
  | none => simp [strTruthy]
  | some s =>
      simp only [strTruthy, Bool.not_eq_true', Option.some.injEq]
      constructor
      · intro h
        exact ⟨s, rfl, fun hs => by rw [hs] at h; exact absurd h (by decide)⟩
      · rintro ⟨t, het, ht⟩
        subst het
        cases hb : s.isEmpty with
        | false => rfl
        | true => exact absurd ((String.isEmpty_iff s).mp hb) ht

/-- A discount-summary match forces the source summary to be truthy: the
matching window carries a non-empty summary whose lowercase form equals
the lowercase of the source summary, and lowercasing preserves
non-emptiness. -/
theorem strTruthy_of_matches (source w : SaleWindow)
    (h : discountSummaryMatches source w = true) :
    strTruthy source.discount_summary = true := by
  unfold discountSummaryMatches at h
  rw [Bool.and_eq_true, decide_eq_true_eq] at h
  obtain ⟨hw, heq⟩ := h
  by_contra hsrc
  have hsrcval : source.discount_summary.getD "" = "" := by
    cases hs : source.discount_summary with
    | none => rfl
    | some s =>
        by_contra hne
        exact hsrc ((strTruthy_some_iff _).mpr ⟨s, hs, by simpa using hne⟩)
  obtain ⟨t, hw2, htne⟩ := (strTruthy_some_iff _).mp hw
  rw [hw2, hsrcval] at heq
  have : lowerStr t = "" := by simpa using heq
  exact htne ((lowerStr_eq_empty_iff t).mp this)

/-- A similar sale is from a different year than the source window. -/
theorem similar_year_ne (source w : SaleWindow) (h : isSimilarSale source w = true) :
    w.year ≠ source.year := by
  unfold isSimilarSale at h
  rw [Bool.and_eq_true, Bool.and_eq_true] at h
  exact of_decide_eq_true h.1.2

/-- The sequentially accumulated confidence of the code equals the
closed-form specification formula, given that the historical windows all
predate the target year (as the generator's query guarantees). -/
theorem confidence_eq_spec (source : SaleWindow) (hist : List SaleWindow)
    (hy : ∀ w ∈ hist, w.year < source.year + 1) :
    calculate_prediction_confidence source hist = spec_confidence source hist := by
  have hyears :
      (((hist.filter (isSimilarSale source)).map (fun w => w.year)).toFinset).filter
          (fun y => y < source.year)
        = ((hist.filter (isSimilarSale source)).map (fun w => w.year)).toFinset := by
    apply Finset.filter_true_of_mem
    intro y hymem
    rw [List.mem_toFinset, List.mem_map] at hymem
    obtain ⟨w, hwmem, hwy⟩ := hymem
    rw [List.mem_filter] at hwmem
    have hne := similar_year_ne source w hwmem.2
    have hlt := hy w hwmem.1
    omega
  have hcard : ((similar_sales source hist).map (fun w => w.year)).dedup.length
      = ((((hist.filter (isSimilarSale source)).map (fun w => w.year)).toFinset).filter
          (fun y => y < source.year)).card := by
    rw [hyears, List.card_toFinset]
    rfl
  have hdisc :
      ((!(similar_sales source hist).isEmpty && strTruthy source.discount_summary) = true
        ∧ 0 < (similar_sales source hist).countP (discountSummaryMatches source))
      ↔ (∃ w ∈ hist, isSimilarSale source w = true
          ∧ discountSummaryMatches source w = true) := by
    constructor
    · rintro ⟨-, hcount⟩
      obtain ⟨w, hwmem, hwmatch⟩ := List.countP_pos_iff.mp hcount
      rw [similar_sales, List.mem_filter] at hwmem
      exact ⟨w, hwmem.1, hwmem.2, hwmatch⟩
    · rintro ⟨w, hwhist, hwsim, hwmatch⟩
      have hwmem : w ∈ similar_sales source hist := by
        rw [similar_sales, List.mem_filter]
        exact ⟨hwhist, hwsim⟩
      refine ⟨?_, List.countP_pos_iff.mpr ⟨w, hwmem, hwmatch⟩⟩
      rw [Bool.and_eq_true]
      constructor
      · rw [Bool.not_eq_true']
        exact List.isEmpty_eq_false_iff_exists_mem.mpr ⟨w, hwmem⟩
      · exact strTruthy_of_matches source w hwmatch
  simp only [calculate_prediction_confidence, spec_confidence]
  rw [hcard]
  congr 1
  by_cases ha : strTruthy source.holiday_anchor = true
  · by_cases hd : (!(similar_sales source hist).isEmpty
        && strTruthy source.discount_summary) = true
    · by_cases hc : 0 < (similar_sales source hist).countP (discountSummaryMatches source)
      · rw [if_pos ha, if_pos hd, if_pos hc, if_pos ha, if_pos (hdisc.mp ⟨hd, hc⟩)]
        try ring
      · rw [if_pos ha, if_pos hd, if_neg hc, if_pos ha,
          if_neg (fun hx => hc (hdisc.mpr hx).2)]
        try ring
    · rw [if_pos ha, if_neg hd, if_pos ha, if_neg (fun hx => hd (hdisc.mpr hx).1)]
      try ring
  · by_cases hd : (!(similar_sales source hist).isEmpty
        && strTruthy source.discount_summary) = true
    · by_cases hc : 0 < (similar_sales source hist).countP (discountSummaryMatches source)
      · rw [if_neg ha, if_pos hd, if_pos hc, if_neg ha, if_pos (hdisc.mp ⟨hd, hc⟩)]
        try ring
      · rw [if_neg ha, if_pos hd, if_neg hc, if_neg ha,
          if_neg (fun hx => hc (hdisc.mpr hx).2)]
        try ring
    · rw [if_neg ha, if_neg hd, if_neg ha, if_neg (fun hx => hd (hdisc.mpr hx).1)]
      try ring

/-- Claim C3: the prediction confidence equals 0.5, plus 0.15 when
holiday-anchored, plus min(0.10 × distinct prior years with a similar
window, 0.25) de-duplicated by window identity, plus 0.10 when the
discount summary text matches a precedent window, capped at 1.0; and a
candidate is accepted by the generator exactly when this confidence
reaches the 0.6 threshold (0.6 accepted, 0.59 rejected). -/
theorem confidence_formula_and_threshold (source : SaleWindow) (hist : List SaleWindow)
    (hy : ∀ w ∈ hist, w.year < source.year + 1) :
    calculate_prediction_confidence source hist = spec_confidence source hist
    ∧ (∀ (tY : Int) (emails : List RawEmailRef),
        generate_candidates tY [source] hist [] emails = []
          ↔ calculate_prediction_confidence source hist < MIN_CONFIDENCE_FOR_PREDICTION)
    ∧ ¬((6:ℚ)/10 < MIN_CONFIDENCE_FOR_PREDICTION)
    ∧ (59:ℚ)/100 < MIN_CONFIDENCE_FOR_PREDICTION := by
  refine ⟨confidence_eq_spec source hist hy, ?_, ?_, ?_⟩
  · intro tY emails
    simp only [generate_candidates, List.map_nil, List.filterMap_cons, List.filterMap_nil,
      List.contains_nil, Bool.false_eq_true, if_false]
    by_cases hcm : calculate_prediction_confidence source hist < MIN_CONFIDENCE_FOR_PREDICTION
    · rw [if_pos hcm]
      simp [hcm]
    · rw [if_neg hcm]
      simp [hcm]
  · rw [MIN_CONFIDENCE_FOR_PREDICTION]
    norm_num
  · rw [MIN_CONFIDENCE_FOR_PREDICTION]
    norm_num

/-- Closed witness for `confidence_formula_and_threshold` at `leapWindow`
with `leapPrecedent` as history. -/
theorem confidence_formula_and_threshold_witness :
    calculate_prediction_confidence leapWindow [leapPrecedent]
      = spec_confidence leapWindow [leapPrecedent] :=
  (confidence_formula_and_threshold leapWindow [leapPrecedent] (by decide)).1


theorem valueStep_snd (rest : List ExtractedSale) (v : Option ℚ) (c : ℚ) :
    (rest.foldl valueStep (v, c)).2
      = rest.foldl (fun acc x => max acc x.confidence) c := by
  induction rest generalizing v c with
  | nil => rfl
  | cons x xs ih => simp only [List.foldl_cons, valueStep]; exact ih _ _

theorem maxConfidence_cons (e : ExtractedSale) (rest : List ExtractedSale) :
    maxConfidence (e :: rest) = rest.foldl (fun acc x => max acc x.confidence) e.confidence :=
  rfl

theorem valueOfMembers_append (e : ExtractedSale) (rest : List ExtractedSale)
    (x : ExtractedSale) :
    valueOfMembers ((e :: rest) ++ [x])
      = (if ratTruthy x.discount_value &&
            (decide (valueOfMembers (e :: rest) = none)
              || decide (maxConfidence (e :: rest) < x.confidence))
         then x.discount_value else valueOfMembers (e :: rest)) := by
  simp only [valueOfMembers, List.cons_append, List.foldl_append, List.foldl_cons,
    List.foldl_nil, valueStep, valueStep_snd, maxConfidence_cons]

theorem spanOfMembers_append (e : ExtractedSale) (rest : List ExtractedSale)
    (x : ExtractedSale) :
    spanOfMembers ((e :: rest) ++ [x])
      = (min (spanOfMembers (e :: rest)).1 (effStart x),
         max (spanOfMembers (e :: rest)).2 (effEnd x)) := by
  simp only [spanOfMembers, List.cons_append, List.foldl_append, List.foldl_cons,
    List.foldl_nil]

theorem categoriesOfMembers_append (l : List ExtractedSale) (x : ExtractedSale) :
    categoriesOfMembers (l ++ [x]) = categoriesOfMembers l ∪ x.categories.toFinset := by
  simp only [categoriesOfMembers, List.foldl_append, List.foldl_cons, List.foldl_nil]

theorem newGroup_invariant (e : ExtractedSale) :
    GroupInvariant (newGroup e (get_sale_dates e).1 (get_sale_dates e).2) := by
  refine ⟨by simp [newGroup], ?_, ?_, ?_, ?_⟩ <;>
    simp [newGroup, spanOfMembers, categoriesOfMembers, valueOfMembers, effStart, effEnd]

theorem joinGroup_invariant (g : SaleGroup) (e : ExtractedSale)
    (h : GroupInvariant g) :
    GroupInvariant (joinGroup g e (get_sale_dates e).1 (get_sale_dates e).2) := by
  obtain ⟨ems, sd, ed, dt, dv, cats⟩ := g
  obtain ⟨hne, hstart, hstop, hcats, hval⟩ := h
  cases ems with
  | nil => exact absurd rfl hne
  | cons e0 rest =>
      simp only at hstart hstop hcats hval
      refine ⟨by simp [joinGroup], ?_, ?_, ?_, ?_⟩
      · show min sd (get_sale_dates e).1 = (spanOfMembers ((e0 :: rest) ++ [e])).1
        rw [spanOfMembers_append, hstart]
        rfl
      · show max ed (get_sale_dates e).2 = (spanOfMembers ((e0 :: rest) ++ [e])).2
        rw [spanOfMembers_append, hstop]
        rfl
      · show cats ∪ e.categories.toFinset = categoriesOfMembers ((e0 :: rest) ++ [e])
        rw [categoriesOfMembers_append, hcats]
      · show (if ratTruthy e.discount_value &&
              (decide (dv = none) || decide (maxConfidence (e0 :: rest) < e.confidence))
            then e.discount_value else dv)
          = valueOfMembers ((e0 :: rest) ++ [e])
        rw [valueOfMembers_append, hval]

theorem insertExtraction_invariant (e : ExtractedSale) (gs gs' : List SaleGroup)
    (hins : insertExtraction e (get_sale_dates e).1 (get_sale_dates e).2 gs = some gs')
    (hall : ∀ g ∈ gs, GroupInvariant g) :
    ∀ g ∈ gs', GroupInvariant g := by
  induction gs generalizing gs' with
  | nil => cases hins
  | cons g0 rest ih =>
      simp only [insertExtraction] at hins
      by_cases hm : groupMatches (get_sale_dates e).1 (get_sale_dates e).2 e g0 = true
      · rw [if_pos hm] at hins
        injection hins with h
        subst h
        intro g hg
        rcases List.mem_cons.mp hg with hgj | hgr
        · subst hgj
          exact joinGroup_invariant g0 e (hall g0 (List.mem_cons_self ..))
        · exact hall g (List.mem_cons_of_mem _ hgr)
      · rw [if_neg hm] at hins
        cases hrec : insertExtraction e (get_sale_dates e).1 (get_sale_dates e).2 rest with
        | none => rw [hrec] at hins; cases hins
        | some gs2 =>
            rw [hrec] at hins
            injection hins with h
            subst h
            intro g hg
            rcases List.mem_cons.mp hg with hg0 | hg2
            · subst hg0
              exact hall g (List.mem_cons_self ..)
            · exact ih gs2 hrec (fun x hx => hall x (List.mem_cons_of_mem _ hx)) g hg2

theorem group_extractions_invariant_aux (es : List ExtractedSale)
    (acc : List SaleGroup) (hacc : ∀ g ∈ acc, GroupInvariant g) :
    ∀ g ∈ es.foldl
        (fun groups e =>
          let dates := get_sale_dates e
          match insertExtraction e dates.1 dates.2 groups with
          | some groups' => groups'
          | none => groups ++ [newGroup e dates.1 dates.2]) acc,
      GroupInvariant g := by
  induction es generalizing acc with
  | nil => exact hacc
  | cons e rest ih =>
      simp only [List.foldl_cons]
      apply ih
      cases hins : insertExtraction e (get_sale_dates e).1 (get_sale_dates e).2 acc with
      | some gs' =>
          simp only [hins]
          exact insertExtraction_invariant e acc gs' hins hacc
      | none =>
          simp only [hins]
          intro g hg
          rcases List.mem_append.mp hg with hga | hgn
          · exact hacc g hga
          · rw [List.mem_singleton.mp hgn]
            exact newGroup_invariant e

theorem insertExtraction_isSome_iff (e : ExtractedSale) (s t : Int)
    (gs : List SaleGroup) :
    (insertExtraction e s t gs).isSome = true
      ↔ ∃ g ∈ gs, dates_overlap s t g.start_date g.end_date = true
          ∧ discounts_match e.discount_type e.discount_value
              g.discount_type g.discount_value = true := by
  induction gs with
  | nil => simp [insertExtraction]
  | cons g0 rest ih =>
      simp only [insertExtraction]
      by_cases hm : groupMatches s t e g0 = true
      · rw [if_pos hm]
        unfold groupMatches at hm
        rw [Bool.and_eq_true] at hm
        simp only [Option.isSome_some, true_iff]
        exact ⟨g0, List.mem_cons_self .., hm.1, hm.2⟩
      · rw [if_neg hm]
        unfold groupMatches at hm
        rw [Bool.and_eq_true] at hm
        constructor
        · intro hsome
          obtain ⟨g, hg, hcond⟩ := ih.mp (by
            cases hrec : insertExtraction e s t rest with
            | none => rw [hrec] at hsome; simp at hsome
            | some gs2 => simp [hrec])
          exact ⟨g, List.mem_cons_of_mem _ hg, hcond⟩
        · rintro ⟨g, hg, hov, hdm⟩
          rcases List.mem_cons.mp hg with hg0 | hgr
          · subst hg0
            exact absurd ⟨hov, hdm⟩ hm
          · have := ih.mpr ⟨g, hgr, hov, hdm⟩
            cases hrec : insertExtraction e s t rest with
            | none => rw [hrec] at this; simp at this
            | some gs2 => simp [hrec]

/-- Claim C4 as amended: a sale joins an existing group exactly when its
padded span overlaps the padded group span and the discounts match; every
produced group has the union span and merged category set of its members;
and its discount value is the fold of the actual update rule over the
member list: a joining value replaces the group value only when it is
present and non-zero and either the group has no value yet or the joining
confidence strictly exceeds the maximum confidence of all previous members
(so it need not be the value of the most-confident member). -/
theorem dedup_grouping_amended :
    (∀ (es : List ExtractedSale), ∀ g ∈ group_extractions es,
      g.emails ≠ []
      ∧ g.start_date = (spanOfMembers g.emails).1
      ∧ g.end_date = (spanOfMembers g.emails).2
      ∧ g.categories = categoriesOfMembers g.emails
      ∧ g.discount_value = valueOfMembers g.emails)
    ∧ (∀ (gs : List SaleGroup) (e : ExtractedSale) (s t : Int),
        (insertExtraction e s t gs).isSome = true ↔
          ∃ g ∈ gs, dates_overlap s t g.start_date g.end_date = true
            ∧ discounts_match e.discount_type e.discount_value
                g.discount_type g.discount_value = true) := by
  constructor
  · intro es g hg
    exact group_extractions_invariant_aux es [] (fun g hg => absurd hg (List.not_mem_nil g)) g hg
  · intro gs e s t
    exact insertExtraction_isSome_iff e s t gs

/-- Counterexample to claim C4 as stated: grouping a valueless extraction
of confidence 0.9, then one valued 20 at confidence 0.3, then one valued
25 at confidence 0.6, leaves the group with discount value 20 — yet every
most-confident member of the group has no value, and every most-confident
member among those with a value carries 25. -/
theorem dedup_value_counterexample :
    (group_extractions [extNoValue, extLowConf, extMidConf]).map (fun g => g.discount_value)
      = [some 20]
    ∧ (∀ g ∈ group_extractions [extNoValue, extLowConf, extMidConf], ∀ e ∈ g.emails,
        (∀ x ∈ g.emails, x.confidence ≤ e.confidence) → e.discount_value = none)
    ∧ (∀ g ∈ group_extractions [extNoValue, extLowConf, extMidConf], ∀ e ∈ g.emails,
        e.discount_value ≠ none →
        (∀ x ∈ g.emails, x.discount_value ≠ none → x.confidence ≤ e.confidence) →
        e.discount_value = some 25) := by
  have hge : group_extractions [extNoValue, extLowConf, extMidConf]
      = [{ emails := [extNoValue, extLowConf, extMidConf], start_date := 0, end_date := 2,
           discount_type := "percent_off", discount_value := some 20, categories := ∅ }] := by
    norm_num +decide [group_extractions, insertExtraction, groupMatches, dates_overlap,
      discounts_match, joinGroup, newGroup, get_sale_dates, maxConfidence, ratTruthy,
      extNoValue, extLowConf, extMidConf, DATE_PROXIMITY_DAYS, DISCOUNT_VALUE_TOLERANCE]
  refine ⟨by rw [hge]; rfl, ?_, ?_⟩
  · intro g hg e he hmax
    rw [hge, List.mem_singleton] at hg
    subst hg
    simp only [List.mem_cons, List.not_mem_nil, or_false] at he
    rcases he with he | he | he <;> subst he
    · rfl
    · exfalso
      have := hmax extNoValue (by simp)
      rw [show extNoValue.confidence = 9/10 from rfl,
        show extLowConf.confidence = 3/10 from rfl] at this
      norm_num at this
    · exfalso
      have := hmax extNoValue (by simp)
      rw [show extNoValue.confidence = 9/10 from rfl,
        show extMidConf.confidence = 6/10 from rfl] at this
      norm_num at this
  · intro g hg e he hval hmax
    rw [hge, List.mem_singleton] at hg
    subst hg
    simp only [List.mem_cons, List.not_mem_nil, or_false] at he
    rcases he with he | he | he <;> subst he
    · exact absurd rfl hval
    · exfalso
      have := hmax extMidConf (by simp) (by exact fun h => Option.some_ne_none _ h)
      rw [show extMidConf.confidence = 6/10 from rfl,
        show extLowConf.confidence = 3/10 from rfl] at this
      norm_num at this
    · rfl

/-- Closed witness for `dedup_grouping_amended` on a singleton input. -/
theorem dedup_grouping_amended_witness :
    (newGroup extNoValue 0 2) ∈ group_extractions [extNoValue]
    ∧ (newGroup extNoValue 0 2).start_date
        = (spanOfMembers (newGroup extNoValue 0 2).emails).1 := by
  have hmem : (newGroup extNoValue 0 2) ∈ group_extractions [extNoValue] := by
    show (newGroup extNoValue 0 2) ∈ [newGroup extNoValue 0 2]
    exact List.mem_singleton.mpr rfl
  exact ⟨hmem, (dedup_grouping_amended.1 [extNoValue] _ hmem).2.1⟩

end SaleWatcher
